import Mathlib

/-!
Verification of the caustics simulator (Refraction & Projection Engine).

The repository ships `src/main.cpp`, the interactive driver: it parses the
command-line arguments, loads an OBJ mesh, calls `Refract` once on the normal
array, then recomputes the ray / receiver-plane intersections each time the
plane distance changes, drawing them and optionally saving a PPM image.
The core numerical routines `Refract` and `CalculateIntersections` are
declared in `refract.h`, whose implementation is not part of the sources;
they are modelled here from the specification (vector-form Snell solver and
ray-plane projector, each returning a per-element validity flag).
Floating-point arithmetic is modelled by exact real arithmetic.
-/

/-- A 3D vector (`Eigen::Vector3d` in the code). -/
structure Vec3 where
  x : ℝ
  y : ℝ
  z : ℝ

/-- A 2D vector (`Eigen::Vector2d` in the code). -/
structure Vec2 where
  x : ℝ
  y : ℝ

/-- Dot product of two 3D vectors. -/
def dot3 (a b : Vec3) : ℝ := a.x * b.x + a.y * b.y + a.z * b.z

/-- Squared Euclidean norm. -/
def normSq3 (v : Vec3) : ℝ := v.x * v.x + v.y * v.y + v.z * v.z

/-- Euclidean norm. -/
noncomputable def norm3 (v : Vec3) : ℝ := Real.sqrt (normSq3 v)

/-- Scalar multiplication. -/
def smul3 (c : ℝ) (v : Vec3) : Vec3 := ⟨c * v.x, c * v.y, c * v.z⟩

/-- Vector addition. -/
def add3 (a b : Vec3) : Vec3 := ⟨a.x + b.x, a.y + b.y, a.z + b.z⟩

/-- Normalization to unit length (division by the Euclidean norm). -/
noncomputable def normalize3 (v : Vec3) : Vec3 := smul3 (norm3 v)⁻¹ v

/-- The fixed incident-beam direction: a collimated beam travelling along the
negative propagation axis (the z axis, the axis along which the receiver-plane
distance is measured in `main.cpp`). -/
def dIncident : Vec3 := ⟨0, 0, -1⟩

/-- The session-constant relative refractive index (`constexpr double ETA = 1.457`
in `main.cpp`). -/
noncomputable def ETA : ℝ := 1457 / 1000

/-- Modelled from the spec: the per-normal body of `Refract` (declared in
`refract.h`, implementation not in the sources).  Vector form of Snell's law:
`cosTheta1 = -dot(n, d)`, `sin2Theta2 = eta^2 * (1 - cosTheta1^2)`; if
`sin2Theta2 > 1` the ray undergoes total internal reflection and is marked
invalid (`none`); otherwise `cosTheta2 = sqrt` of the radicand clamped to
`[0,1]`, and the refracted direction is
`normalize(eta*d + (eta*cosTheta1 - cosTheta2)*n)`. -/
noncomputable def refractOne (eta : ℝ) (n : Vec3) : Option Vec3 :=
  let cosTheta1 := -(dot3 n dIncident)
  let sin2Theta2 := eta ^ 2 * (1 - cosTheta1 ^ 2)
  if 1 < sin2Theta2 then none
  else
    let cosTheta2 := Real.sqrt (max 0 (min 1 (1 - sin2Theta2)))
    some (normalize3 (add3 (smul3 eta dIncident)
      (smul3 (eta * cosTheta1 - cosTheta2) n)))

/-- Modelled from the spec: `Refract` maps the whole normal array through the
per-normal Snell solver, one output (direction + validity) per input normal. -/
noncomputable def Refract (normals : List Vec3) (eta : ℝ) : List (Option Vec3) :=
  normals.map (refractOne eta)

/-- Modelled from the spec: the per-vertex body of `CalculateIntersections`
(declared in `refract.h`, implementation not in the sources).  An invalid
refracted ray yields an absent point.  For a valid ray, if the direction's
axis (z) component is exactly `0` the ray is parallel to the receiver plane
and the point is absent; otherwise `t = (D - vertex.z) / direction.z`, and
under the forward-only policy (documented convention: the plane must lie in
the direction of travel, i.e. `t >= 0`) a negative `t` yields an absent
point, else the in-plane coordinates are
`(vertex.x + t * direction.x, vertex.y + t * direction.y)`. -/
noncomputable def projectOne (v : Vec3) (dOpt : Option Vec3) (D : ℝ) : Option Vec2 :=
  match dOpt with
  | none => none
  | some dir =>
    if dir.z = 0 then none
    else
      let t := (D - v.z) / dir.z
      if t < 0 then none
      else some ⟨v.x + t * dir.x, v.y + t * dir.y⟩

/-- Modelled from the spec: `CalculateIntersections` projects every vertex
along its refracted ray onto the receiver plane at distance `D`, one output
(2D point + validity) per input vertex, same order. -/
noncomputable def CalculateIntersections (vertices : List Vec3)
    (refracteds : List (Option Vec3)) (D : ℝ) : List (Option Vec2) :=
  List.zipWith (fun v dOpt => projectOne v dOpt D) vertices refracteds

/-- The ray parameter solved for by the projector. -/
noncomputable def tParam (v : Vec3) (dir : Vec3) (D : ℝ) : ℝ := (D - v.z) / dir.z

/-- C1: the Refraction Solver marks a ray as total internal reflection exactly
when `eta^2 * (1 - cosTheta1^2) > 1`, with `cosTheta1 = -dot(n, dIncident)`. -/
theorem refract_tir_iff (eta : ℝ) (n : Vec3) :
    refractOne eta n = none ↔ 1 < eta ^ 2 * (1 - (-(dot3 n dIncident)) ^ 2) := by
  unfold refractOne
  by_cases h : 1 < eta ^ 2 * (1 - (-(dot3 n dIncident)) ^ 2)
  · simp [h]
  · simp [h]

/-- C2: for every vertex sequence, direction sequence of the same length, and
plane distance, the intersection sequence has the same length as the vertex
sequence and is index-aligned with it, each element an `Option Vec2`
(validity flag alongside the 2D point). -/
theorem calculateIntersections_length_aligned (vertices : List Vec3)
    (refracteds : List (Option Vec3)) (D : ℝ)
    (hlen : vertices.length = refracteds.length) :
    (CalculateIntersections vertices refracteds D).length = vertices.length ∧
    ∀ i (h1 : i < vertices.length) (h2 : i < refracteds.length)
      (h3 : i < (CalculateIntersections vertices refracteds D).length),
      (CalculateIntersections vertices refracteds D).get ⟨i, h3⟩ =
        projectOne (vertices.get ⟨i, h1⟩) (refracteds.get ⟨i, h2⟩) D := by
  constructor
  · simp [CalculateIntersections, List.length_zipWith, hlen]
  · intro i h1 h2 h3
    simp [CalculateIntersections]

/-- C2 witness: a concrete two-element instance. -/
theorem calculateIntersections_length_aligned_witness :
    (CalculateIntersections [⟨0, 0, 0⟩, ⟨1, 2, 3⟩] [some ⟨0, 0, -1⟩, none] 4).length = 2 := by
  have h := calculateIntersections_length_aligned
    [⟨0, 0, 0⟩, ⟨1, 2, 3⟩] [some ⟨0, 0, -1⟩, none] 4 (by simp)
  exact h.1

/-- C3: a vertex whose refracted direction has z component exactly `0` gets an
absent intersection point, for every plane distance. -/
theorem parallel_ray_absent (vertices : List Vec3) (refracteds : List (Option Vec3))
    (D : ℝ) (i : ℕ) (dir : Vec3)
    (h3 : i < (CalculateIntersections vertices refracteds D).length)
    (h2 : i < refracteds.length)
    (hdir : refracteds.get ⟨i, h2⟩ = some dir) (hz : dir.z = 0) :
    (CalculateIntersections vertices refracteds D).get ⟨i, h3⟩ = none := by
  have hdir2 : refracteds[i] = some dir := by
    simpa [List.get_eq_getElem] using hdir
  simp [CalculateIntersections, projectOne, hdir2, hz]

/-- C3 witness: a concrete vertex with a plane-parallel direction. -/
theorem parallel_ray_absent_witness :
    (CalculateIntersections [⟨0, 0, 0⟩] [some ⟨1, 0, 0⟩] 3).get ⟨0, by simp [CalculateIntersections]⟩ = none :=
  parallel_ray_absent [⟨0, 0, 0⟩] [some ⟨1, 0, 0⟩] 3 0 ⟨1, 0, 0⟩
    (by simp [CalculateIntersections]) (by simp) rfl rfl

/-- C4: for the vertex at `(0,0,0)` with refracted direction `(0,0,-1)` and
plane distance `D = -5`, the projector computes `t = 5` and the valid
intersection point `(0,0)`. -/
theorem concrete_projection_case :
    tParam ⟨0, 0, 0⟩ ⟨0, 0, -1⟩ (-5) = 5 ∧
    CalculateIntersections [⟨0, 0, 0⟩] [some ⟨0, 0, -1⟩] (-5) = [some ⟨0, 0⟩] := by
  constructor
  · unfold tParam
    norm_num
  · simp only [CalculateIntersections, List.zipWith, projectOne]
    norm_num

/-- On a unit vector, the Euclidean norm is 1. -/
theorem norm3_of_normSq_one {v : Vec3} (h : normSq3 v = 1) : norm3 v = 1 := by
  unfold norm3
  rw [h, Real.sqrt_one]

/-- Normalizing a vector that already has unit norm leaves it unchanged. -/
theorem normalize3_of_normSq_one {v : Vec3} (h : normSq3 v = 1) : normalize3 v = v := by
  unfold normalize3
  rw [norm3_of_normSq_one h, inv_one]
  cases v
  simp [smul3]

/-- The z component squared of a unit vector is at most 1. -/
theorem zsq_le_one {n : Vec3} (hn : normSq3 n = 1) : n.z ^ 2 ≤ 1 := by
  have hx := mul_self_nonneg n.x
  have hy := mul_self_nonneg n.y
  unfold normSq3 at hn
  nlinarith

/-- The pre-normalization refracted vector of the Snell formula has unit
squared norm whenever the input normal is unit and there is no total internal
reflection. -/
theorem normSq3_refracted (eta : ℝ) (n : Vec3) (hn : normSq3 n = 1)
    (hcond : ¬ 1 < eta ^ 2 * (1 - n.z ^ 2)) :
    normSq3 (add3 (smul3 eta dIncident)
      (smul3 (eta * n.z - Real.sqrt (max 0 (min 1 (1 - eta ^ 2 * (1 - n.z ^ 2))))) n)) = 1 := by
  have hz2 : n.z ^ 2 ≤ 1 := zsq_le_one hn
  have hs2nn : 0 ≤ eta ^ 2 * (1 - n.z ^ 2) :=
    mul_nonneg (sq_nonneg eta) (by linarith)
  have hs2le : eta ^ 2 * (1 - n.z ^ 2) ≤ 1 := not_lt.mp hcond
  have hmin : min 1 (1 - eta ^ 2 * (1 - n.z ^ 2)) = 1 - eta ^ 2 * (1 - n.z ^ 2) :=
    min_eq_right (by linarith)
  have hmax : max 0 (1 - eta ^ 2 * (1 - n.z ^ 2)) = 1 - eta ^ 2 * (1 - n.z ^ 2) :=
    max_eq_right (by linarith)
  rw [hmin, hmax]
  have hc2sq : Real.sqrt (1 - eta ^ 2 * (1 - n.z ^ 2)) ^ 2 = 1 - eta ^ 2 * (1 - n.z ^ 2) :=
    Real.sq_sqrt (by linarith)
  generalize hc2 : Real.sqrt (1 - eta ^ 2 * (1 - n.z ^ 2)) = c2 at hc2sq
  unfold normSq3 at hn
  simp only [normSq3, add3, smul3, dIncident]
  linear_combination (eta * n.z - c2) ^ 2 * hn + hc2sq

/-- C5: at `eta = 1`, for every unit normal oriented towards the beam
(nonnegative cosine of incidence), the refracted direction equals the fixed
incident direction: no bending occurs. -/
theorem refract_eta_one (n : Vec3) (hn : normSq3 n = 1)
    (hc : 0 ≤ -(dot3 n dIncident)) : refractOne 1 n = some dIncident := by
  have hdot : -(dot3 n dIncident) = n.z := by simp [dot3, dIncident]
  have hz : 0 ≤ n.z := by rw [hdot] at hc; exact hc
  have hz2 : n.z ^ 2 ≤ 1 := zsq_le_one hn
  have hcond : ¬ (1 : ℝ) < 1 ^ 2 * (1 - (-(dot3 n dIncident)) ^ 2) := by
    rw [hdot]
    nlinarith [sq_nonneg n.z]
  simp only [refractOne, hdot]
  rw [if_neg (by rw [hdot] at hcond; exact hcond)]
  have h1 : (1 : ℝ) - 1 ^ 2 * (1 - n.z ^ 2) = n.z ^ 2 := by ring
  rw [h1, min_eq_right hz2, max_eq_right (sq_nonneg _), Real.sqrt_sq hz]
  have h2 : (1 : ℝ) * n.z - n.z = 0 := by ring
  rw [h2]
  congr 1
  rw [show add3 (smul3 1 dIncident) (smul3 0 n) = dIncident by
    cases n; simp [add3, smul3, dIncident]]
  exact normalize3_of_normSq_one (by norm_num [normSq3, dIncident])

/-- C5 witness: the normal `(0,0,1)` is unit and faces the beam, and the
refracted direction at `eta = 1` is the incident direction. -/
theorem refract_eta_one_witness : refractOne 1 ⟨0, 0, 1⟩ = some dIncident :=
  refract_eta_one ⟨0, 0, 1⟩ (by norm_num [normSq3]) (by norm_num [dot3, dIncident])

/-- C6: every refracted direction the solver marks valid has Euclidean norm
exactly 1 (in the exact-real model; hence within any small epsilon). -/
theorem refract_valid_norm_one (eta : ℝ) (n : Vec3) (r : Vec3)
    (hn : normSq3 n = 1) (hr : refractOne eta n = some r) : norm3 r = 1 := by
  have hd : dot3 n dIncident = -n.z := by simp [dot3, dIncident]
  simp only [refractOne] at hr
  rw [hd] at hr
  simp only [neg_neg] at hr
  split_ifs at hr with hcond
  rw [Option.some_inj] at hr
  have hw := normSq3_refracted eta n hn hcond
  rw [normalize3_of_normSq_one hw] at hr
  rw [← hr]
  exact norm3_of_normSq_one hw

/-- C6 witness: at `eta = 3/2` and the unit normal `(0,0,1)` the solver
produces the direction `(0,0,-1)`, whose norm is 1. -/
theorem refract_valid_norm_one_witness : norm3 ⟨0, 0, -1⟩ = 1 := by
  have hval : refractOne (3 / 2) ⟨0, 0, 1⟩ = some ⟨0, 0, -1⟩ := by
    simp only [refractOne, dot3, dIncident]
    norm_num
    have hv : add3 (smul3 (3 / 2) ({ x := 0, y := 0, z := -1 } : Vec3))
        (smul3 (1 / 2) ({ x := 0, y := 0, z := 1 } : Vec3)) =
        ({ x := 0, y := 0, z := -1 } : Vec3) := by
      simp [add3, smul3]
      norm_num
    rw [hv]
    exact normalize3_of_normSq_one (by norm_num [normSq3])
  exact refract_valid_norm_one (3 / 2) ⟨0, 0, 1⟩ ⟨0, 0, -1⟩ (by norm_num [normSq3]) hval

/-- Key codes distinguished by the `SDL_KEYDOWN` handler in `main.cpp`. -/
inductive KeyCode
  | keyW
  | keyS
  | keyE
  | keyD
  | keyQ
  | keyP
  | keyEscape
  | keyOther
deriving DecidableEq

/-- The SDL events `main.cpp` reacts to: quit, a window resize carrying the
new dimensions, a key press, or anything else (ignored). -/
inductive Event
  | quit
  | windowResized (w h : Int)
  | keyDown (k : KeyCode)
  | otherEvent
deriving DecidableEq

/-- The state of an interactive session of `main`: the loaded arrays, the
memoized refracted directions, the current receiver-plane distance and
intersection array, window dimensions, the quit flag, and instrumentation
counters recording how often `Refract`, `CalculateIntersections`,
`DrawIntersections` and `SaveCausticsPPM` have been invoked. -/
structure SessionState where
  vertices : List Vec3
  normals : List Vec3
  refracteds : List (Option Vec3)
  receiverPlane : ℝ
  intersections : List (Option Vec2)
  windowWidth : Int
  windowHeight : Int
  quitFlag : Bool
  refractCount : ℕ
  recomputeCount : ℕ
  drawCount : ℕ
  saveCount : ℕ

/-- The small step increment used by the `w`/`s` keys in `main.cpp`. -/
noncomputable def smallStep : ℝ := 1 / 10

/-- The big step increment used by the `e`/`d` keys in `main.cpp`. -/
def bigStep : ℝ := 1

/-- One full recomputation of the intersection array from the current
vertices, refracted directions and receiver-plane distance
(`CalculateIntersections(vertices, refracteds, &intersections, receiverPlane)`
in `main.cpp`). -/
noncomputable def recomputeStep (st : SessionState) : SessionState :=
  { st with
    intersections := CalculateIntersections st.vertices st.refracteds st.receiverPlane,
    recomputeCount := st.recomputeCount + 1 }

/-- A call to `DrawIntersections` (only the counter is modelled). -/
def drawStep (st : SessionState) : SessionState :=
  { st with drawCount := st.drawCount + 1 }

/-- Whether a key adjusts the receiver-plane distance (`w`, `s`, `e`, `d`). -/
def isDistanceKey : KeyCode → Bool
  | KeyCode.keyW => true
  | KeyCode.keyS => true
  | KeyCode.keyE => true
  | KeyCode.keyD => true
  | _ => false

/-- The distance increment a key applies in `main.cpp` (`w`: `+smallStep`,
`s`: `-smallStep`, `e`: `+bigStep`, `d`: `-bigStep`, others: none). -/
noncomputable def keyDelta : KeyCode → ℝ
  | KeyCode.keyW => smallStep
  | KeyCode.keyS => -smallStep
  | KeyCode.keyE => bigStep
  | KeyCode.keyD => -bigStep
  | _ => 0

/-- One iteration of the event handling in `main.cpp`'s interactive loop:
quit and escape set the quit flag; a resize stores the new dimensions and
redraws; `w`/`s`/`e`/`d` adjust the receiver-plane distance, recompute the
intersections and redraw; `q` only prints the distance; `p` saves a PPM. -/
noncomputable def stepEvent (st : SessionState) (ev : Event) : SessionState :=
  match ev with
  | Event.quit => { st with quitFlag := true }
  | Event.windowResized w h =>
      drawStep { st with windowWidth := w, windowHeight := h }
  | Event.keyDown k =>
      match k with
      | KeyCode.keyW => drawStep (recomputeStep { st with receiverPlane := st.receiverPlane + smallStep })
      | KeyCode.keyS => drawStep (recomputeStep { st with receiverPlane := st.receiverPlane - smallStep })
      | KeyCode.keyE => drawStep (recomputeStep { st with receiverPlane := st.receiverPlane + bigStep })
      | KeyCode.keyD => drawStep (recomputeStep { st with receiverPlane := st.receiverPlane - bigStep })
      | KeyCode.keyQ => st
      | KeyCode.keyP => { st with saveCount := st.saveCount + 1 }
      | KeyCode.keyEscape => { st with quitFlag := true }
      | KeyCode.keyOther => st
  | Event.otherEvent => st

/-- The state right before the interactive loop of `main.cpp`: the mesh is
loaded, `Refract` has been called exactly once on the normals with the
session-constant `ETA`, and the intersections have been computed and drawn
once for the startup distance. -/
noncomputable def initState (vertices normals : List Vec3) (D : ℝ) : SessionState :=
  { vertices := vertices
    normals := normals
    refracteds := Refract normals ETA
    receiverPlane := D
    intersections := CalculateIntersections vertices (Refract normals ETA) D
    windowWidth := 256
    windowHeight := 256
    quitFlag := false
    refractCount := 1
    recomputeCount := 1
    drawCount := 1
    saveCount := 0 }

/-- Processing a whole event sequence through the interactive loop. -/
noncomputable def runEvents (st : SessionState) (evs : List Event) : SessionState :=
  evs.foldl stepEvent st

/-- One step never touches the loaded arrays, the memoized refracted
directions, or the refraction-call counter. -/
theorem stepEvent_frame (st : SessionState) (ev : Event) :
    (stepEvent st ev).vertices = st.vertices ∧
    (stepEvent st ev).normals = st.normals ∧
    (stepEvent st ev).refracteds = st.refracteds ∧
    (stepEvent st ev).refractCount = st.refractCount := by
  cases ev with
  | quit => simp [stepEvent]
  | windowResized w h => simp [stepEvent, drawStep]
  | keyDown k => cases k <;> simp [stepEvent, drawStep, recomputeStep]
  | otherEvent => simp [stepEvent]

/-- Running any event sequence never touches the loaded arrays, the memoized
refracted directions, or the refraction-call counter. -/
theorem runEvents_frame (evs : List Event) (st : SessionState) :
    (runEvents st evs).vertices = st.vertices ∧
    (runEvents st evs).normals = st.normals ∧
    (runEvents st evs).refracteds = st.refracteds ∧
    (runEvents st evs).refractCount = st.refractCount := by
  induction evs generalizing st with
  | nil => simp [runEvents]
  | cons ev evs ih =>
    have hstep := stepEvent_frame st ev
    have hrec := ih (stepEvent st ev)
    simp only [runEvents, List.foldl_cons] at hrec ⊢
    exact ⟨hrec.1.trans hstep.1, hrec.2.1.trans hstep.2.1,
      hrec.2.2.1.trans hstep.2.2.1, hrec.2.2.2.trans hstep.2.2.2⟩

/-- C7: recomputing the intersections a second time, with the receiver-plane
distance and the vertex and direction arrays unchanged, yields the identical
point sequence (the projector is deterministic and idempotent in its
inputs). -/
theorem recompute_idempotent (st : SessionState) :
    (recomputeStep (recomputeStep st)).intersections = (recomputeStep st).intersections ∧
    (recomputeStep st).intersections =
      CalculateIntersections st.vertices st.refracteds st.receiverPlane := by
  constructor
  · rfl
  · rfl

/-- C8: in every session, the Refraction Solver runs exactly once (at load,
before the interactive loop), the loaded arrays and memoized directions are
never mutated afterwards, and every step changes the recompute counter by
exactly 1 when the event is a distance key and by 0 otherwise, storing the
full freshly projected intersection array. -/
theorem refract_once_recompute_per_change (vertices normals : List Vec3) (D : ℝ)
    (evs : List Event) (st : SessionState) (k : KeyCode) :
    (runEvents (initState vertices normals D) evs).refractCount = 1 ∧
    (runEvents (initState vertices normals D) evs).vertices = vertices ∧
    (runEvents (initState vertices normals D) evs).normals = normals ∧
    (runEvents (initState vertices normals D) evs).refracteds = Refract normals ETA ∧
    ((stepEvent st (Event.keyDown k)).recomputeCount =
      st.recomputeCount + (if isDistanceKey k then 1 else 0)) ∧
    (isDistanceKey k = true →
      (stepEvent st (Event.keyDown k)).intersections =
        CalculateIntersections st.vertices st.refracteds
          (st.receiverPlane + keyDelta k)) := by
  have hframe := runEvents_frame evs (initState vertices normals D)
  refine ⟨hframe.2.2.2, hframe.1, hframe.2.1, hframe.2.2.1, ?_, ?_⟩
  · cases k <;> simp [stepEvent, drawStep, recomputeStep, isDistanceKey]
  · intro hk
    cases k <;> simp_all [stepEvent, drawStep, recomputeStep, isDistanceKey, keyDelta, sub_eq_add_neg]

/-- C8 witness: a concrete session (empty mesh, distance 2, a `w` key press
and a quit event) and a concrete distance-key step. -/
theorem refract_once_recompute_per_change_witness :
    (runEvents (initState [] [] 2) [Event.keyDown KeyCode.keyW, Event.quit]).refractCount = 1 ∧
    (stepEvent (initState [] [] 2) (Event.keyDown KeyCode.keyW)).intersections =
      CalculateIntersections [] (Refract [] ETA) (2 + keyDelta KeyCode.keyW) := by
  have h := refract_once_recompute_per_change [] [] 2
    [Event.keyDown KeyCode.keyW, Event.quit] (initState [] [] 2) KeyCode.keyW
  exact ⟨h.1, h.2.2.2.2.2 rfl⟩

/-- The possible outcomes of the startup phase of `main` (`main.cpp`):
usage error when fewer than three arguments are given; a distance parse
error when `std::stod(argv[2])` throws (non-numeric or out-of-range text);
an OBJ error when `ParseOBJ` fails; otherwise the session starts. -/
inductive StartupOutcome
  | usageError
  | distanceError
  | objError
  | running (receiverPlane : ℝ) (vertices normals : List Vec3)

/-- The process exit code of `main` as a function of the startup outcome:
every failed startup returns `EXIT_FAILURE` (1); a started session runs the
loop and returns 0 on quit. -/
def exitCodeOf : StartupOutcome → ℕ
  | StartupOutcome.usageError => 1
  | StartupOutcome.distanceError => 1
  | StartupOutcome.objError => 1
  | StartupOutcome.running _ _ _ => 0

/-- The startup phase of `main` in `main.cpp`, in the order of the code:
argument-count check, then `std::stod` on `argv[2]` (modelled as an
`Option ℝ`-valued parser, `none` when `std::stod` throws on non-numeric or
out-of-range input), then `ParseOBJ` on `argv[1]` (modelled as an
`Option`-valued loader returning the parallel vertex and normal arrays). -/
def mainStartup (args : List String) (stod : String → Option ℝ)
    (parseObj : String → Option (List Vec3 × List Vec3)) : StartupOutcome :=
  if args.length < 3 then StartupOutcome.usageError
  else
    match stod (args.getD 2 "") with
    | none => StartupOutcome.distanceError
    | some dist =>
      match parseObj (args.getD 1 "") with
      | none => StartupOutcome.objError
      | some (vs, ns) => StartupOutcome.running dist vs ns

/-- The whole program: a failed startup exits with code 1 and never creates a
session (no mesh processing, refraction, rendering or event handling); a
successful startup runs the interactive loop from the initial state. -/
noncomputable def mainProgram (args : List String) (stod : String → Option ℝ)
    (parseObj : String → Option (List Vec3 × List Vec3)) (evs : List Event) :
    ℕ × Option SessionState :=
  match mainStartup args stod parseObj with
  | StartupOutcome.usageError => (1, none)
  | StartupOutcome.distanceError => (1, none)
  | StartupOutcome.objError => (1, none)
  | StartupOutcome.running dist vs ns => (0, some (runEvents (initState vs ns dist) evs))

/-- C9: when the receiver-plane distance argument does not parse (`std::stod`
throws on non-numeric or out-of-range text), startup aborts with the failure
exit code 1, no session is created — so no mesh processing or rendering
happens — and the outcome does not even depend on the mesh loader. -/
theorem bad_distance_aborts_startup (args : List String) (stod : String → Option ℝ)
    (parseObj parseObj2 : String → Option (List Vec3 × List Vec3)) (evs : List Event)
    (hargs : ¬ args.length < 3) (hparse : stod (args.getD 2 "") = none) :
    mainStartup args stod parseObj = StartupOutcome.distanceError ∧
    exitCodeOf (mainStartup args stod parseObj) = 1 ∧
    mainProgram args stod parseObj evs = (1, none) ∧
    mainStartup args stod parseObj = mainStartup args stod parseObj2 := by
  have h : mainStartup args stod parseObj = StartupOutcome.distanceError := by
    unfold mainStartup
    rw [if_neg hargs, hparse]
  have h2 : mainStartup args stod parseObj2 = StartupOutcome.distanceError := by
    unfold mainStartup
    rw [if_neg hargs, hparse]
  refine ⟨h, by rw [h]; rfl, ?_, by rw [h, h2]⟩
  unfold mainProgram
  rw [h]

/-- C9 witness: the concrete command line `prog lens.obj abc` with a parser
rejecting `abc`. -/
theorem bad_distance_aborts_startup_witness :
    mainStartup ["prog", "lens.obj", "abc"] (fun _ => none) (fun _ => none) =
      StartupOutcome.distanceError ∧
    mainProgram ["prog", "lens.obj", "abc"] (fun _ => none) (fun _ => none) [] = (1, none) := by
  have h := bad_distance_aborts_startup ["prog", "lens.obj", "abc"] (fun _ => none)
    (fun _ => none) (fun _ => none) [] (by simp) rfl
  exact ⟨h.1, h.2.2.1⟩

/-- Truncation of a real to an integer toward zero, the behaviour of C++
`static_cast<int>` on a double (for in-range values). -/
noncomputable def truncToInt (x : ℝ) : ℤ := if 0 ≤ x then ⌊x⌋ else ⌈x⌉

/-- The byte index `(y * IMG_SIZE + x) * 3` used by `SaveCausticsPPM` for the
pixel a point lands on (with `IMG_SIZE = 256`). -/
noncomputable def pixIdx (pt : Vec2) : ℕ :=
  ((truncToInt pt.y * 256 + truncToInt pt.x) * 3).toNat

/-- The in-image guard of `SaveCausticsPPM`:
`x >= 0 && x < IMG_SIZE && y >= 0 && y < IMG_SIZE` on the truncated
coordinates. -/
noncomputable def inImage (pt : Vec2) : Prop :=
  0 ≤ truncToInt pt.x ∧ truncToInt pt.x < 256 ∧
  0 ≤ truncToInt pt.y ∧ truncToInt pt.y < 256

noncomputable instance inImageDecidable (pt : Vec2) : Decidable (inImage pt) := by
  unfold inImage
  infer_instance

/-- One iteration of the pixel loop of `SaveCausticsPPM` (`main.cpp`): the
point's coordinates are truncated to `int`; when both lie in
`[0, IMG_SIZE)` the three bytes at `(y * IMG_SIZE + x) * 3` are set to 255
(white), otherwise the buffer is left untouched.  The byte buffer of length
`IMG_SIZE * IMG_SIZE * 3` is modelled as a function from indices to byte
values. -/
noncomputable def writePixel (buffer : ℕ → ℕ) (pt : Vec2) : ℕ → ℕ :=
  if inImage pt then
    fun j => if j = pixIdx pt ∨ j = pixIdx pt + 1 ∨ j = pixIdx pt + 2 then 255
      else buffer j
  else buffer

/-- The whole pixel pass of `SaveCausticsPPM` over the intersection list,
starting from the all-black buffer. -/
noncomputable def saveCausticsBuffer (intersections : List Vec2) : ℕ → ℕ :=
  intersections.foldl writePixel (fun _ => 0)

/-- C10: `SaveCausticsPPM` writes a pixel only when both truncated
coordinates lie in `[0, 256)`: out-of-range points are silently skipped, an
in-range point has all three written byte indices below `256 * 256 * 3`, and
no index at or beyond the buffer size is ever touched. -/
theorem savePPM_writes_in_bounds (buffer : ℕ → ℕ) (pt : Vec2) :
    (¬ inImage pt → writePixel buffer pt = buffer) ∧
    (inImage pt →
      pixIdx pt + 2 < 256 * 256 * 3 ∧ writePixel buffer pt (pixIdx pt) = 255) ∧
    (∀ j, 256 * 256 * 3 ≤ j → writePixel buffer pt j = buffer j) := by
  refine ⟨?_, ?_, ?_⟩
  · intro h
    unfold writePixel
    rw [if_neg h]
  · intro h
    obtain ⟨hx0, hx1, hy0, hy1⟩ := h
    have hidx : pixIdx pt + 2 < 256 * 256 * 3 := by
      unfold pixIdx
      omega
    refine ⟨hidx, ?_⟩
    unfold writePixel
    rw [if_pos ⟨hx0, hx1, hy0, hy1⟩]
    simp
  · intro j hj
    unfold writePixel
    by_cases h : inImage pt
    · rw [if_pos h]
      obtain ⟨hx0, hx1, hy0, hy1⟩ := h
      have hidx : pixIdx pt + 2 < 256 * 256 * 3 := by
        unfold pixIdx
        omega
      show (if j = pixIdx pt ∨ j = pixIdx pt + 1 ∨ j = pixIdx pt + 2 then 255
        else buffer j) = buffer j
      rw [if_neg (by omega)]
    · rw [if_neg h]

/-- C10 witness: the point `(10, 20)` is in range; its pixel bytes start at
index `(20 * 256 + 10) * 3` and are written white, below the buffer size. -/
theorem savePPM_writes_in_bounds_witness :
    pixIdx ⟨10, 20⟩ + 2 < 256 * 256 * 3 ∧
    writePixel (fun _ => 0) ⟨10, 20⟩ (pixIdx ⟨10, 20⟩) = 255 := by
  have hin : inImage ⟨10, 20⟩ := by
    unfold inImage truncToInt
    norm_num
  exact (savePPM_writes_in_bounds (fun _ => 0) ⟨10, 20⟩).2.1 hin
